import Mathlib

/-!
Shallow embedding of the authentication and session subsystem of the
clockwork backend (src/clockwork-auth-controller.js, with the outbound
notification behaviour of src/clockwork-email-service.js), together with
proofs about its operations.

Modelling conventions:
- All handlers are pure functions from an explicit state (relational
  tables plus the Redis key-value store) and an explicit current time in
  seconds to a pair of the next state and the HTTP-level response.
- JWTs are represented by their signed claim set together with the name
  of the signing secret: jsonwebtoken signing is deterministic given
  payload, secret and issued-at second, and parsing is injective, so
  byte-equality of token strings coincides with structural equality of
  this record.
- An inbound token string that is not a well-formed JWT is represented by
  the TokenStr.malformed constructor; jwt.decode returns none on it.
- Redis keys are built in the source by prefixing a fixed tag
  (refresh_, 2fa_temp_, 2fa_setup_, 2fa_backup_, reset_, blacklist_) to a
  suffix; no tag is a prefix of another, so the key strings are in
  bijection with the RKey inductive below.
- Redis per-key TTLs are recorded with each entry; time-based eviction is
  not modelled (eviction can only remove entries, and no theorem below
  relies on an entry surviving until its TTL).
- The outcome of an awaited outbound e-mail dispatch is passed in as an
  explicit boolean: EmailService.send rethrows its transport error after
  logging, so a false value makes the surrounding handler take its catch
  branch exactly as in the source.
-/

/-- A user row of the users table. Timestamp columns (created_at,
updated_at, last_seen) and profile columns not read by any handler branch
are elided. -/
structure User where
  id : String
  email : String
  password : String
  name : String
  phone : String
  roles : List String
  two_factor_enabled : Bool
  two_factor_secret : Option String
  is_online : Bool
deriving DecidableEq, Repr

/-- A row of the nutrition table created for client signups. The source
inserts a fixed block of default JSON columns; only the identifying
columns are modelled. -/
structure NutritionRecord where
  client_id : String
  assigned_by : String
deriving DecidableEq, Repr

/-- A row of the audit_logs table. Request context columns (ip_address,
user_agent) are elided. -/
structure AuditRecord where
  user_id : String
  action : String
  resource : String
  resource_id : String
  details : String
deriving DecidableEq, Repr

/-- The relational database state. -/
structure Db where
  users : List User
  nutrition : List NutritionRecord
  audit_logs : List AuditRecord
deriving DecidableEq, Repr

/-- The signed claim set of a JWT together with the signing secret name.
iat and exp are in seconds, as produced by jsonwebtoken. -/
structure Jwt where
  secret : String
  id : String
  type : String
  email : Option String
  iat : Nat
  exp : Nat
deriving DecidableEq, Repr

/-- An inbound token string: either a well-formed JWT or a malformed
string on which jwt.decode yields null. -/
inductive TokenStr where
  | valid (j : Jwt)
  | malformed (s : String)
deriving DecidableEq, Repr

/-- The name of the access-token signing secret (process.env.JWT_SECRET). -/
def JWT_SECRET : String := "JWT_SECRET"

/-- The name of the refresh-token signing secret
(process.env.JWT_REFRESH_SECRET). -/
def JWT_REFRESH_SECRET : String := "JWT_REFRESH_SECRET"

/-- jwt.decode: reads the payload without verification; null on a
malformed string. -/
def jwtDecode (t : TokenStr) : Option Jwt :=
  match t with
  | .valid j => some j
  | .malformed _ => none

/-- jwt.verify: checks the signature against the given secret and rejects
expired tokens (jsonwebtoken rejects once now >= exp). -/
def jwtVerify (t : TokenStr) (secret : String) (now : Nat) : Option Jwt :=
  match t with
  | .valid j => if j.secret = secret ∧ now < j.exp then some j else none
  | .malformed _ => none

/-- ASCII lowercase of a character, as applied by
String.prototype.toLowerCase to the characters relevant here. -/
def charLower (c : Char) : Char :=
  if 'A' ≤ c ∧ c ≤ 'Z' then Char.ofNat (c.toNat + 32) else c

/-- The toLowerCase call applied to inbound email strings: pointwise
ASCII lowercasing. -/
def strLower (s : String) : String := ⟨s.data.map charLower⟩

/-- Model of bcrypt.hash: a salted slow hash, abstracted to an injective
tagging of the password. -/
def bcryptHash (p : String) : String := "bcrypt2b10" ++ p

/-- Model of bcrypt.compare. -/
def bcryptCompare (p h : String) : Bool := h = bcryptHash p

/-- Model of the external speakeasy TOTP code function: deterministic and
injective in the (secret, time step) pair. -/
def totp (secret : String) (step : Int) : String :=
  secret ++ "#" ++ toString step

/-- Model of speakeasy.totp.verify with encoding base32 at the given
window: the supplied code must equal the TOTP code of some step within
window steps (30 s each) of the current one. -/
def totpVerify (secret code : String) (now : Nat) (window : Nat) : Bool :=
  let step : Int := (now : Int) / 30
  (List.range (2 * window + 1)).any (fun i => code = totp secret (step - window + i))

/-- Redis keys, one constructor per fixed prefix used in the source. -/
inductive RKey where
  | refresh (userId : String)
  | twoFaTemp (userId : String)
  | twoFaSetup (userId : String)
  | twoFaBackup (userId : String)
  | reset (token : TokenStr)
  | blacklist (token : TokenStr)
deriving DecidableEq, Repr

/-- Redis values: the JSON session record stored under refresh keys, a
bare token string, or a plain string. -/
inductive RVal where
  | session (token : Jwt) (email : String) (roles : List String)
  | token (t : Jwt)
  | str (s : String)
deriving DecidableEq, Repr

/-- The Redis store: entries of key, value and remaining TTL in seconds. -/
abbrev Redis := List (RKey × RVal × Nat)

/-- redis.setex: atomically replaces any entry under the key. -/
def redisSetex (r : Redis) (k : RKey) (ttl : Nat) (v : RVal) : Redis :=
  (k, v, ttl) :: r.filter (fun e => ¬ (e.1 = k))

/-- redis.get. -/
def redisGet (r : Redis) (k : RKey) : Option RVal :=
  (r.find? (fun e => e.1 = k)).map (fun e => e.2.1)

/-- The stored value together with its TTL. -/
def redisEntry (r : Redis) (k : RKey) : Option (RVal × Nat) :=
  (r.find? (fun e => e.1 = k)).map (fun e => e.2)

/-- redis.del. -/
def redisDel (r : Redis) (k : RKey) : Redis :=
  r.filter (fun e => ¬ (e.1 = k))

/-- The full mutable state: database plus Redis. -/
structure St where
  db : Db
  redis : Redis
deriving DecidableEq, Repr

/-- HTTP-level responses of the handlers: a status code with the JSON
body shape the source sends. Success payload profile fields not needed by
any theorem are elided to the identifying ones. -/
inductive Resp where
  | error (status : Nat) (msg : String)
  | errorDetails (status : Nat) (msg : String) (details : List String)
  | message (m : String)
  | signupOk (id email name : String) (roles : List String)
      (accessToken refreshToken : Jwt) (msg : String)
  | loginOk (id : String) (accessToken refreshToken : Jwt) (msg : String)
  | twoFactorRequired (tempToken : Jwt) (msg : String)
  | tokensOk (accessToken refreshToken : Jwt)
deriving DecidableEq, Repr

/-- Modelled from the spec: validateEmail lives in ../utils/validators,
which is not part of the repository snapshot. The spec says signup
rejects a malformed email; modelled as requiring an @ sign. -/
def validateEmail (e : String) : Bool := e.data.any (fun c => c = '@')

/-- Result shape of validatePassword. -/
structure PasswordValidation where
  isValid : Bool
  errors : List String
deriving DecidableEq, Repr

/-- Modelled from the spec: validatePassword lives in ../utils/validators,
which is not part of the repository snapshot. The spec says the strength
policy checks minimum length and character-class diversity. -/
def validatePassword (p : String) : PasswordValidation :=
  if p.data.length ≥ 8 ∧ p.data.any Char.isDigit ∧ p.data.any Char.isAlpha then
    ⟨true, []⟩
  else
    ⟨false, ["Password requirements not met"]⟩

/-- The users-table lookup by exact email match, first row. -/
def usersWhereEmail (db : Db) (email : String) : Option User :=
  db.users.find? (fun u => u.email = email)

/-- The users-table lookup by id, first row. -/
def usersWhereId (db : Db) (id : String) : Option User :=
  db.users.find? (fun u => u.id = id)

/-- The audit-logs insert. -/
def auditInsert (db : Db) (uid action resource rid details : String) : Db :=
  { db with audit_logs := db.audit_logs ++ [⟨uid, action, resource, rid, details⟩] }

/-- The users-table update by id, applied through a field
transformer. -/
def usersUpdate (db : Db) (id : String) (f : User → User) : Db :=
  { db with users := db.users.map (fun u => if u.id = id then f u else u) }

/-- Fresh primary key for an inserted user row. -/
def freshUserId (db : Db) : String := "u" ++ toString db.users.length

/-- generateTokens: mints the access JWT (type access, JWT_SECRET,
expiresIn 15m) and the refresh JWT (type refresh, JWT_REFRESH_SECRET,
expiresIn 7d) for the user at the current second. -/
def generateTokens (userId : String) (now : Nat) : Jwt × Jwt :=
  (⟨JWT_SECRET, userId, "access", none, now, now + 15 * 60⟩,
   ⟨JWT_REFRESH_SECRET, userId, "refresh", none, now, now + 7 * 24 * 60 * 60⟩)

/-- The temporary 2FA challenge token signed at login: type 2fa_temp,
JWT_SECRET, expiresIn 5m, carrying the email claim of the user. -/
def twoFaTempToken (u : User) (now : Nat) : Jwt :=
  ⟨JWT_SECRET, u.id, "2fa_temp", some u.email, now, now + 300⟩

/-- The password-reset token signed by resetPasswordRequest: type
password_reset, JWT_SECRET, expiresIn 1h, carrying the email claim. -/
def passwordResetToken (u : User) (now : Nat) : Jwt :=
  ⟨JWT_SECRET, u.id, "password_reset", some u.email, now, now + 3600⟩

/-- signup handler. The database writes run inside a transaction that is
rolled back on any thrown error, while the Redis write (performed before
the awaited welcome e-mail) survives a rollback. emailOk is the outcome
of the awaited emailService.sendWelcomeEmail call, which rethrows
transport failures; a false value sends the handler to its catch branch
(rollback, 500). The duplicate check queries with the email exactly as
supplied, while the insert stores it lowercased. -/
def signup (s : St) (email password name phone : String) (roles : List String)
    (now : Nat) (emailOk : Bool) : St × Resp :=
  if ¬ validateEmail email then
    (s, .error 400 "Invalid email format")
  else if ¬ (validatePassword password).isValid then
    (s, .errorDetails 400 "Password requirements not met" (validatePassword password).errors)
  else
    match usersWhereEmail s.db email with
    | some _ => (s, .error 409 "Email already registered")
    | none =>
      let hashedPassword := bcryptHash password
      let uid := freshUserId s.db
      let user : User :=
        { id := uid, email := strLower email, password := hashedPassword,
          name := name, phone := phone, roles := roles,
          two_factor_enabled := false, two_factor_secret := none,
          is_online := false }
      let db1 : Db := { s.db with users := s.db.users ++ [user] }
      let db2 : Db :=
        if roles.contains "client" then
          { db1 with nutrition := db1.nutrition ++ [⟨uid, uid⟩] }
        else db1
      let toks := generateTokens uid now
      let redis1 := redisSetex s.redis (.refresh uid) (7 * 24 * 60 * 60)
        (.session toks.2 user.email user.roles)
      if ¬ emailOk then
        -- sendWelcomeEmail threw: catch branch rolls the transaction back
        ({ db := s.db, redis := redis1 }, .error 500 "Failed to create account")
      else
        let db3 := auditInsert db2 uid "signup" "user" uid
          ("User account created with roles: " ++ String.intercalate ", " roles)
        ({ db := db3, redis := redis1 },
         .signupOk uid user.email name roles toks.1 toks.2 "Account created successfully")

/-- login handler. -/
def login (s : St) (email password : String) (now : Nat) : St × Resp :=
  match usersWhereEmail s.db (strLower email) with
  | none => (s, .error 401 "Invalid credentials")
  | some user =>
    if ¬ bcryptCompare password user.password then
      let db1 := auditInsert s.db user.id "failed_login" "session" user.id "Invalid password"
      ({ s with db := db1 }, .error 401 "Invalid credentials")
    else if user.two_factor_enabled ∧ user.two_factor_secret.isSome then
      let tempToken := twoFaTempToken user now
      ({ s with redis := redisSetex s.redis (.twoFaTemp user.id) 300 (.token tempToken) },
       .twoFactorRequired tempToken "Please enter your 2FA code")
    else
      let toks := generateTokens user.id now
      let redis1 := redisSetex s.redis (.refresh user.id) (7 * 24 * 60 * 60)
        (.session toks.2 user.email user.roles)
      let db1 := usersUpdate s.db user.id (fun u => { u with is_online := true })
      let db2 := auditInsert db1 user.id "login" "session" user.id
        "User logged in successfully"
      ({ db := db2, redis := redis1 },
       .loginOk user.id toks.1 toks.2 "Login successful")

/-- verifyTwoFactor handler. The stored Redis copy of the challenge token
must byte-equal the supplied one; the user row must exist and hold a
stored secret, otherwise a 400 is returned; then the TOTP code is checked
with window 2. -/
def verifyTwoFactor (s : St) (tempToken : TokenStr) (code : String) (now : Nat) :
    St × Resp :=
  match jwtVerify tempToken JWT_SECRET now with
  | none => (s, .error 401 "Invalid or expired token")
  | some decoded =>
    if decoded.type ≠ "2fa_temp" then
      (s, .error 401 "Invalid token type")
    else if redisGet s.redis (.twoFaTemp decoded.id) ≠ some (.token decoded) then
      (s, .error 401 "Invalid or expired token")
    else
      match usersWhereId s.db decoded.id with
      | none => (s, .error 400 "Two-factor authentication not set up")
      | some user =>
        match user.two_factor_secret with
        | none => (s, .error 400 "Two-factor authentication not set up")
        | some secret =>
          if ¬ totpVerify secret code now 2 then
            let db1 := auditInsert s.db user.id "failed_2fa" "session" user.id
              "Invalid 2FA code"
            ({ s with db := db1 }, .error 401 "Invalid verification code")
          else
            let redis1 := redisDel s.redis (.twoFaTemp user.id)
            let toks := generateTokens user.id now
            let redis2 := redisSetex redis1 (.refresh user.id) (7 * 24 * 60 * 60)
              (.session toks.2 user.email user.roles)
            let db1 := usersUpdate s.db user.id (fun u => { u with is_online := true })
            let db2 := auditInsert db1 user.id "2fa_success" "session" user.id
              "2FA verification successful"
            ({ db := db2, redis := redis2 },
             .loginOk user.id toks.1 toks.2 "2FA verification successful")

/-- logout handler. jwt.decode(token) returning null makes the read of
decoded.exp throw, which the catch turns into a 500 before any state is
touched. Otherwise the token is blacklisted for its remaining lifetime
when positive, and the refresh session record is deleted either way. -/
def logout (s : St) (userId : String) (token : TokenStr) (now : Nat) : St × Resp :=
  match jwtDecode token with
  | none => (s, .error 500 "Logout failed")
  | some decoded =>
    let ttl : Int := (decoded.exp : Int) - (now : Int)
    let redis1 :=
      if 0 < ttl then redisSetex s.redis (.blacklist token) ttl.toNat (.str "1")
      else s.redis
    let redis2 := redisDel redis1 (.refresh userId)
    let db1 := usersUpdate s.db userId (fun u => { u with is_online := false })
    let db2 := auditInsert db1 userId "logout" "session" userId "User logged out"
    ({ db := db2, redis := redis2 }, .message "Logged out successfully")

/-- refreshTokens handler. A missing body parameter is the none case. The
supplied token must verify against the refresh secret, the stored session
record must exist and its token string must byte-equal the supplied one,
and the user row must still exist; then a fresh pair is minted and the
session record overwritten with the new refresh token. A stored value
that is not a session record would make JSON.parse or the field read
throw into the catch branch. -/
def refreshTokens (s : St) (refreshToken : Option TokenStr) (now : Nat) : St × Resp :=
  match refreshToken with
  | none => (s, .error 401 "Refresh token required")
  | some rt =>
    match jwtVerify rt JWT_REFRESH_SECRET now with
    | none => (s, .error 401 "Invalid refresh token")
    | some decoded =>
      match redisGet s.redis (.refresh decoded.id) with
      | none => (s, .error 401 "Invalid refresh token")
      | some (.session storedTok _ _) =>
        if TokenStr.valid storedTok ≠ rt then
          (s, .error 401 "Invalid refresh token")
        else
          match usersWhereId s.db decoded.id with
          | none => (s, .error 401 "User not found")
          | some user =>
            let toks := generateTokens decoded.id now
            let redis1 := redisSetex s.redis (.refresh decoded.id) (7 * 24 * 60 * 60)
              (.session toks.2 user.email user.roles)
            ({ s with redis := redis1 }, .tokensOk toks.1 toks.2)
      | some _ => (s, .error 401 "Token refresh failed")

/-- resetPasswordRequest handler. emailOk is the outcome of the awaited
sendPasswordResetEmail call; a failure lands in the catch branch after
the Redis mirror entry has already been written. -/
def resetPasswordRequest (s : St) (email : String) (now : Nat) (emailOk : Bool) :
    St × Resp :=
  match usersWhereEmail s.db (strLower email) with
  | none =>
    (s, .message "If an account exists with this email, you will receive a password reset link.")
  | some user =>
    let resetToken := passwordResetToken user now
    let redis1 := redisSetex s.redis (.reset (.valid resetToken)) 3600 (.str user.id)
    if ¬ emailOk then
      ({ s with redis := redis1 }, .error 500 "Failed to process request")
    else
      let db1 := auditInsert s.db user.id "password_reset_request" "user" user.id
        "Password reset requested"
      ({ db := db1, redis := redis1 },
       .message "If an account exists with this email, you will receive a password reset link.")

/-- resetPassword handler. The Redis mirror entry keyed by the literal
token string must exist and hold the subject id of the token claim; after
the password update the mirror entry and the session record of the subject are
deleted. emailOk is the outcome of the awaited sendPasswordChangedEmail
call; its failure (like a vanished user row) lands in the catch branch
after those writes have already happened. -/
def resetPassword (s : St) (token : TokenStr) (newPassword : String) (now : Nat)
    (emailOk : Bool) : St × Resp :=
  match jwtVerify token JWT_SECRET now with
  | none => (s, .error 400 "Invalid or expired reset token")
  | some decoded =>
    if decoded.type ≠ "password_reset" then
      (s, .error 400 "Invalid token type")
    else
      match redisGet s.redis (.reset token) with
      | some (.str userId) =>
        if userId ≠ decoded.id then
          (s, .error 400 "Invalid or expired reset token")
        else if ¬ (validatePassword newPassword).isValid then
          (s, .errorDetails 400 "Password requirements not met"
            (validatePassword newPassword).errors)
        else
          let hashedPassword := bcryptHash newPassword
          let db1 := usersUpdate s.db userId (fun u => { u with password := hashedPassword })
          let redis1 := redisDel s.redis (.reset token)
          let redis2 := redisDel redis1 (.refresh userId)
          match usersWhereId db1 userId with
          | none =>
            -- user.email read on undefined throws into the catch branch
            ({ db := db1, redis := redis2 }, .error 400 "Failed to reset password")
          | some _ =>
            if ¬ emailOk then
              ({ db := db1, redis := redis2 }, .error 400 "Failed to reset password")
            else
              let db2 := auditInsert db1 userId "password_reset" "user" userId
                "Password reset successfully"
              ({ db := db2, redis := redis2 },
               .message "Password reset successfully. Please login with your new password.")
      | _ => (s, .error 400 "Invalid or expired reset token")

/-! ## Redis store lemmas -/

theorem find?_filter_out (l : List (RKey × RVal × Nat)) (k k' : RKey) (h : k' ≠ k) :
    (l.filter (fun e => ¬ (e.1 = k))).find? (fun e => e.1 = k') =
      l.find? (fun e => e.1 = k') := by
  induction l with
  | nil => rfl
  | cons a l ih =>
    by_cases hb : a.1 = k'
    · have ha : ¬ a.1 = k := fun hk => h (by rw [← hb, hk])
      rw [List.filter_cons_of_pos (by simpa using ha), List.find?_cons_of_pos _ (by simpa using hb),
        List.find?_cons_of_pos _ (by simpa using hb)]
    · by_cases ha : a.1 = k
      · rw [List.filter_cons_of_neg (by simpa using ha),
          List.find?_cons_of_neg _ (by simpa using hb), ih]
      · rw [List.filter_cons_of_pos (by simpa using ha),
          List.find?_cons_of_neg _ (by simpa using hb),
          List.find?_cons_of_neg _ (by simpa using hb), ih]

theorem redisGet_setex_self (r : Redis) (k : RKey) (ttl : Nat) (v : RVal) :
    redisGet (redisSetex r k ttl v) k = some v := by
  simp [redisGet, redisSetex, List.find?_cons_of_pos]

theorem redisEntry_setex_self (r : Redis) (k : RKey) (ttl : Nat) (v : RVal) :
    redisEntry (redisSetex r k ttl v) k = some (v, ttl) := by
  simp [redisEntry, redisSetex, List.find?_cons_of_pos]

theorem redisGet_setex_ne (r : Redis) (k k' : RKey) (ttl : Nat) (v : RVal)
    (h : k' ≠ k) : redisGet (redisSetex r k ttl v) k' = redisGet r k' := by
  simp only [redisGet, redisSetex]
  rw [List.find?_cons_of_neg _ (by simpa using fun hk => h hk.symm),
    find?_filter_out r k k' h]

theorem redisEntry_setex_ne (r : Redis) (k k' : RKey) (ttl : Nat) (v : RVal)
    (h : k' ≠ k) : redisEntry (redisSetex r k ttl v) k' = redisEntry r k' := by
  simp only [redisEntry, redisSetex]
  rw [List.find?_cons_of_neg _ (by simpa using fun hk => h hk.symm),
    find?_filter_out r k k' h]

theorem redisGet_del_self (r : Redis) (k : RKey) :
    redisGet (redisDel r k) k = none := by
  simp only [redisGet, redisDel]
  induction r with
  | nil => rfl
  | cons a l ih =>
    by_cases ha : a.1 = k
    · rw [List.filter_cons_of_neg (by simpa using ha)]
      exact ih
    · rw [List.filter_cons_of_pos (by simpa using ha),
        List.find?_cons_of_neg _ (by simpa using ha)]
      exact ih

theorem redisGet_del_ne (r : Redis) (k k' : RKey) (h : k' ≠ k) :
    redisGet (redisDel r k) k' = redisGet r k' := by
  simp only [redisGet, redisDel]
  rw [find?_filter_out r k k' h]

theorem redisEntry_del_ne (r : Redis) (k k' : RKey) (h : k' ≠ k) :
    redisEntry (redisDel r k) k' = redisEntry r k' := by
  simp only [redisEntry, redisDel]
  rw [find?_filter_out r k k' h]

/-! ## Concrete fixtures used by witnesses and counterexamples -/

/-- A registered principal without 2FA; the stored email is lowercase, as
the signup insert always lowercases it. -/
def demoUser : User :=
  { id := "u0", email := "a@b.com", password := bcryptHash "Str0ngPass1",
    name := "A", phone := "", roles := ["client"], two_factor_enabled := false,
    two_factor_secret := none, is_online := false }

/-- A state holding only demoUser, with an empty Redis. -/
def demoSt : St :=
  { db := { users := [demoUser], nutrition := [], audit_logs := [] }, redis := [] }

/-- The empty state. -/
def emptySt : St :=
  { db := { users := [], nutrition := [], audit_logs := [] }, redis := [] }

/-! ## Claim theorems -/

/-- C10: a logout whose token string cannot be decoded as a JWT fails
with the generic 500 failure and leaves the state unchanged: the read of
the expiry claim on the null decode result throws before the session
record deletion, so nothing is revoked. -/
theorem c10_logout_undecodable_token_fails_without_revoking
    (s : St) (userId : String) (token : TokenStr) (now : Nat)
    (h : jwtDecode token = none) :
    logout s userId token now = (s, Resp.error 500 "Logout failed") := by
  unfold logout
  rw [h]

/-- Witness for C10 at a concrete malformed token. -/
theorem c10_logout_undecodable_token_fails_without_revoking_witness :
    logout demoSt "u0" (TokenStr.malformed "not-a-jwt") 0 =
      (demoSt, Resp.error 500 "Logout failed") :=
  c10_logout_undecodable_token_fails_without_revoking demoSt "u0"
    (TokenStr.malformed "not-a-jwt") 0 rfl

/-- C6: a login failing because no principal has the (lowercased) email
and a login failing because the password is wrong for an existing
principal return the same InvalidCredentials response; the caller cannot
distinguish the two causes from the response. -/
theorem c6_login_failure_causes_indistinguishable
    (s1 s2 : St) (e1 p1 e2 p2 : String) (n1 n2 : Nat) (u : User)
    (h1 : usersWhereEmail s1.db (strLower e1) = none)
    (h2 : usersWhereEmail s2.db (strLower e2) = some u)
    (h3 : bcryptCompare p2 u.password = false) :
    (login s1 e1 p1 n1).2 = Resp.error 401 "Invalid credentials" ∧
    (login s2 e2 p2 n2).2 = Resp.error 401 "Invalid credentials" ∧
    (login s1 e1 p1 n1).2 = (login s2 e2 p2 n2).2 := by
  have ha : (login s1 e1 p1 n1).2 = Resp.error 401 "Invalid credentials" := by
    unfold login
    rw [h1]
  have hb : (login s2 e2 p2 n2).2 = Resp.error 401 "Invalid credentials" := by
    unfold login
    rw [h2]
    simp [h3]
  exact ⟨ha, hb, ha.trans hb.symm⟩

/-- Witness for C6: no-such-user and wrong-password attempts on the demo
state produce the identical response. -/
theorem c6_login_failure_causes_indistinguishable_witness :
    (login demoSt "nobody@x.com" "pw" 0).2 = Resp.error 401 "Invalid credentials" ∧
    (login demoSt "a@b.com" "WrongPass9" 0).2 = Resp.error 401 "Invalid credentials" ∧
    (login demoSt "nobody@x.com" "pw" 0).2 = (login demoSt "a@b.com" "WrongPass9" 0).2 :=
  c6_login_failure_causes_indistinguishable demoSt demoSt "nobody@x.com" "pw"
    "a@b.com" "WrongPass9" 0 0 demoUser (by decide) (by decide) (by decide)

/-- A principal whose 2FA flag is set while no secret is stored. -/
def flagNoSecretUser : User :=
  { id := "uf", email := "f@b.com", password := bcryptHash "Str0ngPass1",
    name := "F", phone := "", roles := ["client"], two_factor_enabled := true,
    two_factor_secret := none, is_online := false }

/-- A state holding only flagNoSecretUser, with an empty Redis. -/
def flagNoSecretSt : St :=
  { db := { users := [flagNoSecretUser], nutrition := [], audit_logs := [] },
    redis := [] }

/-- C9: a principal whose 2FA flag is true but whose stored secret is
absent bypasses the second-factor challenge on a correct-password login:
the 2FA branch requires both the flag and the secret, so tokens are
issued directly, no challenge entry is written, and the session record is
overwritten with the new refresh token. -/
theorem c9_login_2fa_flag_without_secret_bypasses_challenge
    (s : St) (email password : String) (now : Nat) (u : User)
    (hu : usersWhereEmail s.db (strLower email) = some u)
    (hp : bcryptCompare password u.password = true)
    (hf : u.two_factor_enabled = true)
    (hs : u.two_factor_secret = none) :
    (login s email password now).2 =
      Resp.loginOk u.id (generateTokens u.id now).1 (generateTokens u.id now).2
        "Login successful" ∧
    redisGet (login s email password now).1.redis (RKey.twoFaTemp u.id) =
      redisGet s.redis (RKey.twoFaTemp u.id) ∧
    redisEntry (login s email password now).1.redis (RKey.refresh u.id) =
      some (RVal.session (generateTokens u.id now).2 u.email u.roles, 7 * 24 * 60 * 60) := by
  have hred : login s email password now =
      ({ db := auditInsert (usersUpdate s.db u.id (fun v => { v with is_online := true }))
           u.id "login" "session" u.id "User logged in successfully",
         redis := redisSetex s.redis (RKey.refresh u.id) (7 * 24 * 60 * 60)
           (RVal.session (generateTokens u.id now).2 u.email u.roles) },
       Resp.loginOk u.id (generateTokens u.id now).1 (generateTokens u.id now).2
         "Login successful") := by
    unfold login
    rw [hu]
    simp [hp, hf, hs]
  refine ⟨by rw [hred], ?_, ?_⟩
  · rw [hred]
    exact redisGet_setex_ne _ _ _ _ _ (fun h => RKey.noConfusion h)
  · rw [hred]
    exact redisEntry_setex_self _ _ _ _

/-- Witness for C9: a user with the flag set and no secret logs in with
the correct password and receives tokens directly. -/
theorem c9_login_2fa_flag_without_secret_bypasses_challenge_witness :
    (login flagNoSecretSt "f@b.com" "Str0ngPass1" 50).2 =
      Resp.loginOk "uf" (generateTokens "uf" 50).1 (generateTokens "uf" 50).2
        "Login successful" ∧
    redisGet (login flagNoSecretSt "f@b.com" "Str0ngPass1" 50).1.redis
      (RKey.twoFaTemp "uf") = redisGet flagNoSecretSt.redis (RKey.twoFaTemp "uf") ∧
    redisEntry (login flagNoSecretSt "f@b.com" "Str0ngPass1" 50).1.redis
      (RKey.refresh "uf") =
      some (RVal.session (generateTokens "uf" 50).2 "f@b.com" ["client"], 7 * 24 * 60 * 60) :=
  c9_login_2fa_flag_without_secret_bypasses_challenge flagNoSecretSt "f@b.com"
    "Str0ngPass1" 50 flagNoSecretUser (by decide) (by decide) (by decide) (by decide)

/-- A principal with 2FA fully enabled (flag and stored secret). -/
def twoFaUser : User :=
  { id := "ua", email := "t@b.com", password := bcryptHash "Str0ngPass1",
    name := "T", phone := "", roles := ["client"], two_factor_enabled := true,
    two_factor_secret := some "SECA", is_online := false }

/-- A state holding only twoFaUser, with an empty Redis. -/
def twoFaSt : St :=
  { db := { users := [twoFaUser], nutrition := [], audit_logs := [] },
    redis := [] }

/-- C8: a correct-password login against a principal with 2FA enabled
does not issue access or refresh tokens: it mints a signed challenge
token expiring in 300 seconds, stores it in the session store keyed by
the subject id with TTL 300, leaves the session record of the subject
untouched, and returns the two-factor-pending response carrying the
challenge token. -/
theorem c8_login_with_2fa_returns_challenge
    (s : St) (email password : String) (now : Nat) (u : User) (sec : String)
    (hu : usersWhereEmail s.db (strLower email) = some u)
    (hp : bcryptCompare password u.password = true)
    (hf : u.two_factor_enabled = true)
    (hs : u.two_factor_secret = some sec) :
    (login s email password now).2 =
      Resp.twoFactorRequired (twoFaTempToken u now) "Please enter your 2FA code" ∧
    (twoFaTempToken u now).exp = now + 300 ∧
    redisEntry (login s email password now).1.redis (RKey.twoFaTemp u.id) =
      some (RVal.token (twoFaTempToken u now), 300) ∧
    redisGet (login s email password now).1.redis (RKey.refresh u.id) =
      redisGet s.redis (RKey.refresh u.id) := by
  have hred : login s email password now =
      ({ s with redis := redisSetex s.redis (RKey.twoFaTemp u.id) 300 (RVal.token (twoFaTempToken u now)) },
       Resp.twoFactorRequired (twoFaTempToken u now) "Please enter your 2FA code") := by
    unfold login
    rw [hu]
    simp [hp, hf, hs]
  refine ⟨by rw [hred], rfl, ?_, ?_⟩
  · rw [hred]
    exact redisEntry_setex_self _ _ _ _
  · rw [hred]
    exact redisGet_setex_ne _ _ _ _ _ (fun h => RKey.noConfusion h)

/-- Witness for C8 at a concrete 2FA-enabled principal. -/
theorem c8_login_with_2fa_returns_challenge_witness :
    (login twoFaSt "t@b.com" "Str0ngPass1" 40).2 =
      Resp.twoFactorRequired (twoFaTempToken twoFaUser 40) "Please enter your 2FA code" ∧
    (twoFaTempToken twoFaUser 40).exp = 40 + 300 ∧
    redisEntry (login twoFaSt "t@b.com" "Str0ngPass1" 40).1.redis
      (RKey.twoFaTemp "ua") = some (RVal.token (twoFaTempToken twoFaUser 40), 300) ∧
    redisGet (login twoFaSt "t@b.com" "Str0ngPass1" 40).1.redis (RKey.refresh "ua") =
      redisGet twoFaSt.redis (RKey.refresh "ua") :=
  c8_login_with_2fa_returns_challenge twoFaSt "t@b.com" "Str0ngPass1" 40 twoFaUser
    "SECA" (by decide) (by decide) (by decide) (by decide)

/-- C7: a logout with a decodable access token returns the success
message, deletes the session record of the subject (killing the refresh
token), and writes a blacklist entry keyed by the exact token string with
TTL equal to the expiry claim minus the current time; when that remaining
lifetime is not positive the blacklist write is skipped while the session
record is still deleted. -/
theorem c7_logout_blacklists_and_deletes_session
    (s : St) (userId : String) (token : TokenStr) (d : Jwt) (now : Nat)
    (h : jwtDecode token = some d) :
    (logout s userId token now).2 = Resp.message "Logged out successfully" ∧
    redisGet (logout s userId token now).1.redis (RKey.refresh userId) = none ∧
    (0 < (d.exp : Int) - (now : Int) →
      redisEntry (logout s userId token now).1.redis (RKey.blacklist token) =
        some (RVal.str "1", ((d.exp : Int) - (now : Int)).toNat)) ∧
    ((d.exp : Int) - (now : Int) ≤ 0 →
      redisEntry (logout s userId token now).1.redis (RKey.blacklist token) =
        redisEntry s.redis (RKey.blacklist token)) := by
  by_cases hc : (0 : Int) < (d.exp : Int) - (now : Int)
  · have hred : logout s userId token now =
        ({ db := auditInsert (usersUpdate s.db userId (fun v => { v with is_online := false }))
             userId "logout" "session" userId "User logged out",
           redis := redisDel (redisSetex s.redis (RKey.blacklist token)
             ((d.exp : Int) - (now : Int)).toNat (RVal.str "1")) (RKey.refresh userId) },
         Resp.message "Logged out successfully") := by
      unfold logout
      rw [h]
      simp [hc]
    refine ⟨by rw [hred], ?_, fun _ => ?_, fun hle => absurd hc (by omega)⟩
    · rw [hred]
      exact redisGet_del_self _ _
    · rw [hred]
      show redisEntry (redisDel _ (RKey.refresh userId)) (RKey.blacklist token) = _
      rw [redisEntry_del_ne _ _ _ (fun hk => RKey.noConfusion hk)]
      exact redisEntry_setex_self _ _ _ _
  · have hred : logout s userId token now =
        ({ db := auditInsert (usersUpdate s.db userId (fun v => { v with is_online := false }))
             userId "logout" "session" userId "User logged out",
           redis := redisDel s.redis (RKey.refresh userId) },
         Resp.message "Logged out successfully") := by
      unfold logout
      rw [h]
      simp [hc]
    refine ⟨by rw [hred], ?_, fun hlt => absurd hlt hc, fun _ => ?_⟩
    · rw [hred]
      exact redisGet_del_self _ _
    · rw [hred]
      exact redisEntry_del_ne _ _ _ (fun hk => RKey.noConfusion hk)

/-- An access token for demoUser minted at second 100 (expiry 1000). -/
def demoAccessToken : Jwt := (generateTokens "u0" 100).1

/-- demoSt with a live session record for demoUser. -/
def demoSessionSt : St :=
  { demoSt with redis := redisSetex [] (RKey.refresh "u0") (7 * 24 * 60 * 60) (RVal.session (generateTokens "u0" 100).2 "a@b.com" ["client"]) }

/-- Witness for C7: logging out at second 200 blacklists the token for
the remaining 800 seconds and deletes the session record. -/
theorem c7_logout_blacklists_and_deletes_session_witness :
    (logout demoSessionSt "u0" (TokenStr.valid demoAccessToken) 200).2 =
      Resp.message "Logged out successfully" ∧
    redisGet (logout demoSessionSt "u0" (TokenStr.valid demoAccessToken) 200).1.redis
      (RKey.refresh "u0") = none ∧
    redisEntry (logout demoSessionSt "u0" (TokenStr.valid demoAccessToken) 200).1.redis
      (RKey.blacklist (TokenStr.valid demoAccessToken)) =
      some (RVal.str "1", ((demoAccessToken.exp : Int) - (200 : Int)).toNat) :=
  ⟨(c7_logout_blacklists_and_deletes_session demoSessionSt "u0"
      (TokenStr.valid demoAccessToken) demoAccessToken 200 rfl).1,
   (c7_logout_blacklists_and_deletes_session demoSessionSt "u0"
      (TokenStr.valid demoAccessToken) demoAccessToken 200 rfl).2.1,
   (c7_logout_blacklists_and_deletes_session demoSessionSt "u0"
      (TokenStr.valid demoAccessToken) demoAccessToken 200 rfl).2.2.1 (by decide)⟩

/-- C1: the duplicate-signup guard is case-sensitive although stored
emails are lowercased. With the principal a@b.com registered, a signup
re-using the exact stored casing is rejected with 409 and leaves the
state unchanged, but a signup with the same email in different casing
passes the guard (which queries with the raw input) and inserts a second
principal whose stored lowercased email duplicates the first. -/
theorem c1_duplicate_signup_guard_is_case_sensitive :
    signup demoSt "a@b.com" "Str0ngPass2" "B" "" ["client"] 0 true =
      (demoSt, Resp.error 409 "Email already registered") ∧
    (signup demoSt "A@B.com" "Str0ngPass2" "B" "" ["client"] 0 true).2 ≠
      Resp.error 409 "Email already registered" ∧
    (signup demoSt "A@B.com" "Str0ngPass2" "B" "" ["client"] 0 true).1.db.users.map
      User.email = ["a@b.com", "a@b.com"] := by
  refine ⟨by decide, by decide, by decide⟩

/-- C5: a failing welcome-notification dispatch fails the whole signup:
the transaction is rolled back (no principal or nutrition record
persists) and the generic 500 failure is returned, while the session
record already written to Redis before the e-mail call survives. -/
theorem c5_welcome_email_failure_fails_signup :
    (signup emptySt "a@b.com" "Str0ngPass1" "A" "" ["client"] 0 false).2 =
      Resp.error 500 "Failed to create account" ∧
    (signup emptySt "a@b.com" "Str0ngPass1" "A" "" ["client"] 0 false).1.db.users = [] ∧
    (signup emptySt "a@b.com" "Str0ngPass1" "A" "" ["client"] 0 false).1.db.nutrition = [] ∧
    redisGet (signup emptySt "a@b.com" "Str0ngPass1" "A" "" ["client"] 0 false).1.redis
      (RKey.refresh "u0") =
      some (RVal.session (generateTokens "u0" 0).2 "a@b.com" ["client"]) := by
  refine ⟨by decide, by decide, by decide, by decide⟩

/-- Challenge token for twoFaUser minted at second 0. -/
def c4ChallengeA : Jwt := twoFaTempToken twoFaUser 0

/-- Challenge token for flagNoSecretUser minted at second 0. -/
def c4ChallengeB : Jwt := twoFaTempToken flagNoSecretUser 0

/-- State with both principals and their stored challenge tokens. The
no-secret challenge state is reachable because disabling 2FA nulls the
secret without deleting a pending challenge entry. -/
def c4St : St :=
  { db := { users := [twoFaUser, flagNoSecretUser], nutrition := [], audit_logs := [] },
    redis := redisSetex (redisSetex [] (RKey.twoFaTemp "ua") 300 (RVal.token c4ChallengeA)) (RKey.twoFaTemp "uf") 300 (RVal.token c4ChallengeB) }

/-- Counterexample to C4: with valid, matching challenge tokens, a wrong
TOTP code yields a 401 Invalid verification code while an absent stored
secret yields a different 400 response, so the two failure causes are
distinguishable in the returned result. -/
theorem c4_claim_counterexample :
    (verifyTwoFactor c4St (TokenStr.valid c4ChallengeA) "000000" 10).2 =
      Resp.error 401 "Invalid verification code" ∧
    (verifyTwoFactor c4St (TokenStr.valid c4ChallengeB) "000000" 10).2 =
      Resp.error 400 "Two-factor authentication not set up" ∧
    (verifyTwoFactor c4St (TokenStr.valid c4ChallengeA) "000000" 10).2 ≠
      (verifyTwoFactor c4St (TokenStr.valid c4ChallengeB) "000000" 10).2 := by
  refine ⟨by decide, by decide, by decide⟩

/-- C4 (amended): for failing verifyTwoFactor attempts whose challenge
token is valid and matches the stored copy, a wrong TOTP code returns the
401 InvalidCode error while an absent stored 2FA secret returns a
distinct 400 not-set-up error; the two causes are distinguishable in the
returned result. -/
theorem c4_failure_responses_reveal_missing_secret
    (s1 s2 : St) (t1 t2 : TokenStr) (code1 code2 : String) (n1 n2 : Nat)
    (d1 d2 : Jwt) (u1 u2 : User) (sec : String)
    (hv1 : jwtVerify t1 JWT_SECRET n1 = some d1) (ht1 : d1.type = "2fa_temp")
    (hr1 : redisGet s1.redis (RKey.twoFaTemp d1.id) = some (RVal.token d1))
    (hu1 : usersWhereId s1.db d1.id = some u1)
    (hs1 : u1.two_factor_secret = some sec)
    (hc1 : totpVerify sec code1 n1 2 = false)
    (hv2 : jwtVerify t2 JWT_SECRET n2 = some d2) (ht2 : d2.type = "2fa_temp")
    (hr2 : redisGet s2.redis (RKey.twoFaTemp d2.id) = some (RVal.token d2))
    (hu2 : usersWhereId s2.db d2.id = some u2)
    (hs2 : u2.two_factor_secret = none) :
    (verifyTwoFactor s1 t1 code1 n1).2 = Resp.error 401 "Invalid verification code" ∧
    (verifyTwoFactor s2 t2 code2 n2).2 =
      Resp.error 400 "Two-factor authentication not set up" ∧
    (verifyTwoFactor s1 t1 code1 n1).2 ≠ (verifyTwoFactor s2 t2 code2 n2).2 := by
  have ha : (verifyTwoFactor s1 t1 code1 n1).2 =
      Resp.error 401 "Invalid verification code" := by
    unfold verifyTwoFactor
    rw [hv1]
    simp [ht1, hr1, hu1, hs1, hc1]
  have hb : (verifyTwoFactor s2 t2 code2 n2).2 =
      Resp.error 400 "Two-factor authentication not set up" := by
    unfold verifyTwoFactor
    rw [hv2]
    simp [ht2, hr2, hu2, hs2]
  refine ⟨ha, hb, ?_⟩
  rw [ha, hb]
  intro hk
  exact Resp.noConfusion hk (fun h _ => by simp at h)

/-- Witness for the amended C4 at the concrete counterexample state. -/
theorem c4_failure_responses_reveal_missing_secret_witness :
    (verifyTwoFactor c4St (TokenStr.valid c4ChallengeA) "111111" 10).2 =
      Resp.error 401 "Invalid verification code" ∧
    (verifyTwoFactor c4St (TokenStr.valid c4ChallengeB) "111111" 10).2 =
      Resp.error 400 "Two-factor authentication not set up" ∧
    (verifyTwoFactor c4St (TokenStr.valid c4ChallengeA) "111111" 10).2 ≠
      (verifyTwoFactor c4St (TokenStr.valid c4ChallengeB) "111111" 10).2 :=
  c4_failure_responses_reveal_missing_secret c4St c4St
    (TokenStr.valid c4ChallengeA) (TokenStr.valid c4ChallengeB) "111111" "111111"
    10 10 c4ChallengeA c4ChallengeB twoFaUser flagNoSecretUser "SECA"
    (by decide) (by decide) (by decide) (by decide) (by decide) (by decide)
    (by decide) (by decide) (by decide) (by decide) (by decide)

/-- Helper: a token that verifies is the valid embedding of the decoded
claim set. -/
theorem jwtVerify_eq_some (t : TokenStr) (secret : String) (now : Nat) (d : Jwt)
    (h : jwtVerify t secret now = some d) :
    t = TokenStr.valid d ∧ d.secret = secret ∧ now < d.exp := by
  cases t with
  | malformed s => exact absurd h (by simp [jwtVerify])
  | valid j =>
    simp only [jwtVerify] at h
    by_cases hc : j.secret = secret ∧ now < j.exp
    · rw [if_pos hc] at h
      obtain rfl : j = d := by injection h
      exact ⟨rfl, hc.1, hc.2⟩
    · rw [if_neg hc] at h
      exact absurd h (by simp)

/-- C3: a successful password-reset consumption deletes the session-store
mirror entry keyed by the token string, so any later consumption attempt
with the same token string fails with the invalid-or-expired error. -/
theorem c3_reset_token_single_consumption
    (s s' : St) (tok : TokenStr) (p m p' : String) (now now' : Nat) (eo eo' : Bool)
    (h : resetPassword s tok p now eo = (s', Resp.message m)) :
    redisGet s'.redis (RKey.reset tok) = none ∧
    (resetPassword s' tok p' now' eo').2 =
      Resp.error 400 "Invalid or expired reset token" := by
  unfold resetPassword at h
  split at h
  · exact absurd h (by simp)
  · next decoded hv =>
    split at h
    · exact absurd h (by simp)
    · next hts =>
      split at h
      · next userId heq =>
        split at h
        · exact absurd h (by simp)
        · next hid =>
          split at h
          · exact absurd h (by simp)
          · next hpv =>
            split at h
            · simp only [] at h
              split at h
              · exact absurd h (by simp)
              · exact absurd h (by simp)
            · next heo =>
              simp only [] at h
              split at h
              · exact absurd h (by simp)
              · next w hw =>
                rw [Prod.mk.injEq] at h
                obtain ⟨h1, -⟩ := h
                have hgone : redisGet s'.redis (RKey.reset tok) = none := by
                  rw [← h1]
                  show redisGet (redisDel _ (RKey.refresh userId)) (RKey.reset tok) = none
                  rw [redisGet_del_ne _ _ _ (fun hk => RKey.noConfusion hk)]
                  exact redisGet_del_self _ _
                refine ⟨hgone, ?_⟩
                unfold resetPassword
                cases hv2 : jwtVerify tok JWT_SECRET now' with
                | none => rfl
                | some d2 =>
                  obtain ⟨htok, -, -⟩ := jwtVerify_eq_some tok JWT_SECRET now decoded hv
                  obtain ⟨htok2, -, -⟩ := jwtVerify_eq_some tok JWT_SECRET now' d2 hv2
                  have hd : d2 = decoded := by
                    rw [htok] at htok2
                    injection htok2 with hh
                    exact hh.symm
                  rw [hd]
                  simp only [hgone]
                  rw [if_neg hts]
      · exact absurd h (by simp)

/-- State after demoUser requested a password reset at second 0. -/
def c3RequestedSt : St := (resetPasswordRequest demoSt "a@b.com" 0 true).1

/-- The reset token minted by that request. -/
def c3Token : TokenStr := TokenStr.valid (passwordResetToken demoUser 0)

/-- State after the reset token was consumed successfully at second 10. -/
def c3ConsumedSt : St := (resetPassword c3RequestedSt c3Token "NewStr0ngPass1" 10 true).1

/-- Witness for C3: after a successful consumption the mirror entry is
gone and an immediate second attempt with the same token fails. -/
theorem c3_reset_token_single_consumption_witness :
    redisGet c3ConsumedSt.redis (RKey.reset c3Token) = none ∧
    (resetPassword c3ConsumedSt c3Token "NewStr0ngPass1" 20 true).2 =
      Resp.error 400 "Invalid or expired reset token" :=
  c3_reset_token_single_consumption c3RequestedSt c3ConsumedSt c3Token
    "NewStr0ngPass1" "Password reset successfully. Please login with your new password."
    "NewStr0ngPass1" 10 20 true true (by decide)

/-- Refresh token for demoUser minted at second 1000. -/
def c2rt1 : Jwt := (generateTokens "u0" 1000).2

/-- State with demoUser and a live session record holding c2rt1. -/
def c2St : St :=
  { db := { users := [demoUser], nutrition := [], audit_logs := [] },
    redis := redisSetex [] (RKey.refresh "u0") (7 * 24 * 60 * 60) (RVal.session c2rt1 "a@b.com" ["client"]) }

/-- Counterexample to C2: a rotation performed in the same second as the
issuance second of the supplied token re-mints a byte-identical refresh token
(jsonwebtoken claims have one-second granularity and carry no nonce), so
the rotation succeeds with a pair whose refresh token equals rt1, the
stored record again holds rt1, and a subsequent rotation with rt1
succeeds instead of failing with the invalid-token error. -/
theorem c2_claim_counterexample :
    (refreshTokens c2St (some (TokenStr.valid c2rt1)) 1000).2 =
      Resp.tokensOk (generateTokens "u0" 1000).1 c2rt1 ∧
    (refreshTokens ((refreshTokens c2St (some (TokenStr.valid c2rt1)) 1000).1)
      (some (TokenStr.valid c2rt1)) 1000).2 =
      Resp.tokensOk (generateTokens "u0" 1000).1 c2rt1 ∧
    (refreshTokens ((refreshTokens c2St (some (TokenStr.valid c2rt1)) 1000).1)
      (some (TokenStr.valid c2rt1)) 1000).2 ≠
      Resp.error 401 "Invalid refresh token" := by
  refine ⟨by decide, by decide, by decide⟩

/-- C2 (amended): after a successful rotation whose newly minted refresh
token differs from the supplied rt1 (guaranteed whenever the rotation
happens in a different second than the issuance of rt1), the stored session
record holds only the new refresh token and any subsequent rotation
attempt with rt1 fails with the invalid-token error, because rotation
requires the supplied token to byte-equal the stored one. -/
theorem c2_rotation_invalidates_distinct_previous_token
    (s s' : St) (rt1 : TokenStr) (a r2 : Jwt) (now now' : Nat)
    (h : refreshTokens s (some rt1) now = (s', Resp.tokensOk a r2))
    (hne : TokenStr.valid r2 ≠ rt1) :
    (∃ em ro, redisGet s'.redis (RKey.refresh r2.id) =
      some (RVal.session r2 em ro)) ∧
    (refreshTokens s' (some rt1) now').2 =
      Resp.error 401 "Invalid refresh token" := by
  simp only [refreshTokens] at h
  split at h
  · exact absurd h (by simp)
  · next decoded hv =>
    split at h
    · exact absurd h (by simp)
    · next storedTok em0 ro0 hg =>
      split at h
      · exact absurd h (by simp)
      · next hst =>
        split at h
        · exact absurd h (by simp)
        · next user hw =>
          rw [Prod.mk.injEq] at h
          obtain ⟨h1, h2⟩ := h
          rw [Resp.tokensOk.injEq] at h2
          obtain ⟨-, hr⟩ := h2
          have hrid : r2.id = decoded.id := by rw [← hr]; rfl
          have hget : redisGet s'.redis (RKey.refresh decoded.id) =
              some (RVal.session r2 user.email user.roles) := by
            rw [← h1]
            show redisGet (redisSetex _ (RKey.refresh decoded.id) _ _) _ = _
            rw [redisGet_setex_self, hr]
          refine ⟨⟨user.email, user.roles, by rw [hrid]; exact hget⟩, ?_⟩
          obtain ⟨htok, -, -⟩ := jwtVerify_eq_some rt1 JWT_REFRESH_SECRET now decoded hv
          simp only [refreshTokens]
          cases hv2 : jwtVerify rt1 JWT_REFRESH_SECRET now' with
          | none => rfl
          | some d2 =>
            obtain ⟨htok2, -, -⟩ := jwtVerify_eq_some rt1 JWT_REFRESH_SECRET now' d2 hv2
            have hd2 : d2 = decoded := by
              rw [htok] at htok2
              injection htok2 with hh
              exact hh.symm
            rw [hd2]
            simp only [hget]
            rw [if_pos hne]
    · exact absurd h (by simp)

/-- State after rotating c2rt1 at second 2000 (a different second than
its issuance, so the minted refresh token differs from c2rt1). -/
def c2RotatedSt : St := (refreshTokens c2St (some (TokenStr.valid c2rt1)) 2000).1

/-- Witness for the amended C2: after the rotation at second 2000, a
second rotation attempt with the old token fails with the invalid-token
error. -/
theorem c2_rotation_invalidates_distinct_previous_token_witness :
    (refreshTokens c2RotatedSt (some (TokenStr.valid c2rt1)) 2500).2 =
      Resp.error 401 "Invalid refresh token" :=
  (c2_rotation_invalidates_distinct_previous_token c2St c2RotatedSt
    (TokenStr.valid c2rt1) (generateTokens "u0" 2000).1 (generateTokens "u0" 2000).2
    2000 2500 (by decide) (by decide)).2
